import Mathlib

/-!
Verification of the SRM conversation-state resolution and decision engine.

The definitions below are a shallow embedding, in Lean, of the Python source
of the repository (src/services/ai_service.py, src/data/sql_db.py,
src/data/mock_db.py, src/data/conversations.py, src/backend/routes/chat.py).
Text is processed over `List Char` (the `data` of a `String`) with small
structural helpers so that every definition is executable and reduces in the
kernel.  Python regular expressions are embedded as explicit scanners; the
correspondence is noted at each definition.
-/

namespace SRM

/-! ## Generic text helpers (used to embed Python string / regex operations) -/

/-- `startsWithL p l` is true when `p` is a leading segment of `l`
(embeds Python prefix tests and anchors a regex match at one position). -/
def startsWithL : List Char → List Char → Bool
  | [], _ => true
  | _ :: _, [] => false
  | a :: ps, b :: ls => a == b && startsWithL ps ls

/-- `containsSeq n l` is true when `n` occurs contiguously inside `l`
(embeds Python's `needle in haystack` substring test). -/
def containsSeq : List Char → List Char → Bool
  | n, [] => n.isEmpty
  | n, c :: ls => startsWithL n (c :: ls) || containsSeq n ls

/-- Embeds Python `str.strip()`: drop whitespace from both ends. -/
def pyStrip (l : List Char) : List Char :=
  ((l.dropWhile Char.isWhitespace).reverse.dropWhile Char.isWhitespace).reverse

/-- Embeds Python `str.lower()`.  `Char.toLower` lowers ASCII letters only;
the Python method also lowers accented letters, which none of the source's
lowercase keyword/marker constants require. -/
def pyLower (l : List Char) : List Char := l.map Char.toLower

/-! ## Language Inferencer — `infer_language_from_thread` (ai_service.py 4-37) -/

/-- The closed language set of the Language Inferencer contract. -/
inductive Lang
  | ar
  | fr
  | en
deriving DecidableEq

/-- The language code string the Python function actually returns. -/
def Lang.code : Lang → String
  | .ar => "ar"
  | .fr => "fr"
  | .en => "en"

/-- One conversation turn as passed to `run_agent` / the language inferencer
(a Python dict with `role` and `content` keys). -/
structure Msg where
  role : String
  content : String
deriving DecidableEq

/-- Embeds `AR_CHARS = re.compile(r"[؀-ۿ]")` applied to one char. -/
def isArabicChar (c : Char) : Bool := 0x0600 ≤ c.toNat && c.toNat ≤ 0x06FF

/-- `AR_CHARS.search(s)` succeeds iff some char of `s` is in the Arabic block. -/
def containsArabicL (l : List Char) : Bool := l.any isArabicChar

/-- Embeds `ARABIZI_DIGITS = re.compile(r"[23579]")` applied to one char. -/
def isArabiziDigit (c : Char) : Bool :=
  c == '2' || c == '3' || c == '5' || c == '7' || c == '9'

/-- `ARABIZI_DIGITS.search(s)` succeeds iff `s` has a char among 2,3,5,7,9. -/
def containsArabiziDigitL (l : List Char) : Bool := l.any isArabiziDigit

/-- The token alternatives of the `DARIJA_TOKENS` regex (ai_service.py 6-9). -/
def darijaTokens : List String :=
  ["salam", "slm", "3ndi", "andi", "bghit", "baghi", "bghina", "n9ol",
   "mchkil", "mochkil", "dial", "dyal", "lma", "ma", "daw", "dou", "dyo",
   "kahraba", "kahr", "wach", "fin", "kifach", "chno", "ch7al"]

/-- A regex word character (`\w`): ASCII alphanumerics, underscore, and — as
an approximation of Python's Unicode `\w` — every non-ASCII codepoint.  The
approximation differs from Python only on non-ASCII punctuation; every text
reaching the Darija check has already failed the Arabic-script test, and the
darija tokens themselves are ASCII. -/
def isWordChar (c : Char) : Bool := c.isAlphanum || c == '_' || 0x80 ≤ c.toNat

/-- Splits a text into its maximal runs of word characters (accumulator holds
the current run reversed).  A `\b token \b` regex alternative matches exactly
when some maximal run equals the token. -/
def wordRunsAux : List Char → List Char → List (List Char)
  | [], cur => if cur.isEmpty then [] else [cur.reverse]
  | c :: cs, cur =>
    if isWordChar c then wordRunsAux cs (c :: cur)
    else if cur.isEmpty then wordRunsAux cs []
    else cur.reverse :: wordRunsAux cs []

def wordRuns (l : List Char) : List (List Char) := wordRunsAux l []

/-- `DARIJA_TOKENS.search(text)` (case-insensitive, word-bounded): some
maximal word run of the text, lowered, equals one of the tokens. -/
def hasDarijaTokenL (l : List Char) : Bool :=
  (wordRuns l).any fun r => darijaTokens.any fun t => pyLower r == t.data

/-- The French marker substrings (ai_service.py 33). -/
def frMarkers : List String :=
  [" je ", " vous ", " bonjour", " facture", " électricité", " electricite",
   " eau", " problème", " coupée", " panne"]

/-- `any(m in " " + text.lower() + " " for m in fr_markers)` (ai_service.py 32-34). -/
def frAnyL (l : List Char) : Bool :=
  let tl := [' '] ++ pyLower l ++ [' ']
  frMarkers.any fun m => containsSeq m.data tl

/-- Content of the most recent assistant turn, `""` when there is none
(ai_service.py 13-17: walk `reversed(chat_history)` and stop at the first
`role == "assistant"`). -/
def lastAssistantContent (chatHistory : List Msg) : String :=
  ((chatHistory.reverse.find? fun m => m.role == "assistant").map Msg.content).getD ""

/-- Embeds `infer_language_from_thread` (ai_service.py 11-37): (1) Arabic
script in the last assistant turn, (2) Arabic script in the stripped current
text, (3) Arabizi digits or Darija tokens, (4) French markers, (5) English. -/
def infer_language_from_thread (userInput : String) (chatHistory : List Msg) : Lang :=
  if containsArabicL (lastAssistantContent chatHistory).data then .ar
  else
    let text := pyStrip userInput.data
    if containsArabicL text then .ar
    else if containsArabiziDigitL text || hasDarijaTokenL text then .ar
    else if frAnyL text then .fr
    else .en

/-! ## Service Classifier — `detect_service` (ai_service.py 40-52) -/

inductive Service
  | water
  | electricity
  | both
  | unknown
deriving DecidableEq

def waterKw : List String :=
  ["water", "eau", "ماء", "الماء", "ma2", "lma", "robinet"]

def elecKw : List String :=
  ["electricity", "électricité", "electricite", "كهرباء", "الكهرباء",
   "courant", "prise", "lamp"]

/-- Embeds `detect_service` (ai_service.py 40-52): keyword containment over
the lowercased text, `both` when water and electricity keywords both hit. -/
def detect_service (text : String) : Service :=
  let tl := pyLower text.data
  let hasW := waterKw.any fun k => containsSeq k.data tl
  let hasE := elecKw.any fun k => containsSeq k.data tl
  if hasW && hasE then .both
  else if hasW then .water
  else if hasE then .electricity
  else .unknown

/-! ## Contract Identifier — `WATER_RE` / `ELEC_RE` (ai_service.py 622-624)

`WATER_RE = (3701\d{6,}\s*/\s*\d{4,})`, `ELEC_RE` likewise with `4801`.
`re.search` is embedded as a scanner trying the pattern at every start
position, leftmost match first.  Because a digit run can contain neither `/`
nor whitespace, the greedy quantifiers of the pattern are equivalent to the
maximal-run scanner below (no backtracking point ever succeeds otherwise).
`\d` and `\s` are embedded as ASCII `Char.isDigit` / `Char.isWhitespace`;
Python additionally accepts non-ASCII digits and exotic spaces, which no
claim exercises. -/

def waterPat : List Char := ['3', '7', '0', '1']

def elecPat : List Char := ['4', '8', '0', '1']

/-- Try to match `pat ++ \d{6,} ++ \s* ++ / ++ \s* ++ \d{4,}` at the head of
`l`; return the matched text (group 1). -/
def matchContractAt (pat l : List Char) : Option (List Char) :=
  if startsWithL pat l then
    let rest := l.drop pat.length
    let d1 := rest.takeWhile Char.isDigit
    let r1 := rest.dropWhile Char.isDigit
    if 6 ≤ d1.length then
      let s1 := r1.takeWhile Char.isWhitespace
      match r1.dropWhile Char.isWhitespace with
      | '/' :: r3 =>
        let s2 := r3.takeWhile Char.isWhitespace
        let d2 := (r3.dropWhile Char.isWhitespace).takeWhile Char.isDigit
        if 4 ≤ d2.length then some (pat ++ d1 ++ s1 ++ ['/'] ++ s2 ++ d2)
        else none
      | _ => none
    else none
  else none

/-- Embeds `re.search`: first position (left to right) where the contract
pattern matches, returning the matched text. -/
def reSearch (pat : List Char) : List Char → Option (List Char)
  | [] => none
  | c :: ls =>
    match matchContractAt pat (c :: ls) with
    | some m => some m
    | none => reSearch pat ls

/-! ## Reactivation Window Evaluator — `_build_reactivation_note`
(ai_service.py 88-178)

The source renders the advisory as a one-line string and returns `""` when no
advisory applies.  The embedding returns `Option Advisory`: `none` stands for
the source's `""`, and `some a` carries exactly the data the rendered line is
built from (normalized service key, normalized language, whether the payment
time is shown, and the remaining-minutes figure).  The elapsed-seconds input
arrives from the data store as a number (float in Python); it is embedded as
`Int`, which covers every claim input. -/

structure Advisory where
  serviceKey : String
  lang : String
  paidAtShown : Bool
  remainingMinutes : Nat
deriving DecidableEq

/-- `WINDOW_SECONDS = 2 * 60` (ai_service.py 89). -/
def WINDOW_SECONDS : Int := 2 * 60

/-- Embeds the service-normalization block of `_build_reactivation_note`
(ai_service.py 122-135): membership lists first, then substring fallback,
else the generic `"service"` key. -/
def normalizeServiceKey (service : String) : String :=
  let s : String := String.mk (pyLower (pyStrip service.data))
  if ["water", "eau", "الماء", "ماء", "lma"].contains s then "water"
  else if ["electricity", "electricite", "électricité", "الكهرباء", "كهرباء", "daw"].contains s then
    "electricity"
  else if containsSeq "3701".data s.data || containsSeq "water".data s.data ||
      containsSeq "eau".data s.data || containsSeq "ماء".data s.data ||
      containsSeq "الماء".data s.data then "water"
  else if containsSeq "4801".data s.data || containsSeq "electric".data s.data ||
      containsSeq "élect".data s.data || containsSeq "كهرباء".data s.data ||
      containsSeq "الكهرباء".data s.data then "electricity"
  else "service"

/-- Embeds `_build_reactivation_note` (ai_service.py 91-178).  Gates: the
store-computed elapsed seconds absent, or at least the window, give no note;
negative elapsed is clamped to 0.  `remaining_seconds = max(0, int(round(
window - elapsed)))` is exact on integral inputs, and
`remaining_minutes = max(1, (remaining_seconds + 59) // 60)`.  The optional
`paymentTimestamp` (epoch seconds) only controls whether the formatted
payment time appears in the line. -/
def build_reactivation_note (paymentTimestamp : Option Int) (service : String)
    (secondsSincePayment : Option Int) (lang : String) (windowSeconds : Int) :
    Option Advisory :=
  match secondsSincePayment with
  | none => none
  | some s0 =>
    let elapsed : Int := if s0 < 0 then 0 else s0
    if windowSeconds ≤ elapsed then none
    else
      let serviceKey := normalizeServiceKey service
      let langLower : String := String.mk (pyLower lang.data)
      let langNorm := if ["ar", "fr", "en"].contains langLower then langLower else "ar"
      let remainingSeconds : Nat := (windowSeconds - elapsed).toNat
      let remainingMinutes : Nat := max 1 ((remainingSeconds + 59) / 60)
      some ⟨serviceKey, langNorm, paymentTimestamp.isSome, remainingMinutes⟩

/-! ## Data store — `sql_db.py`

`get_user_by_water_contract` / `get_user_by_electricity_contract` issue one
query, `WHERE contract = ? OR contract LIKE ? + '%'`, over the invoice table
joined with `users`; the embedding keeps the joined rows as a list and the
`LIKE`-with-trailing-wildcard as a leading-segment test (router-supplied
contract strings contain no `LIKE` metacharacters).  Any exception — the
connection failing included — is caught inside the function, printed, and
turned into `None` (sql_db.py 115-117, 184-186); the two-layer embedding
below keeps the raw query outcome visible so that this catch is explicit.

The `SELECT` list carries `last_payment_date` but not `last_payment_datetime`
and no store-computed `seconds_since_payment`; the callers read both with
`.get`, so through this code path they are absent.  Spec §6 requires the
store to supply them, so the row type models them as optional fields (a row
with either field `some` models the §6 store contract). -/

structure UserRow where
  user_id : Int
  name : String
  address : String
  phone : String
  zone_id : Option Int
  contract_number : String
  is_paid : Bool
  /-- Decimal MAD balance, embedded as an integer (the engine only ever
  compares it with 0). -/
  outstanding_balance : Int
  last_payment_date : Option String
  cut_status : String
  cut_reason : Option String
  last_payment_datetime : Option Int
  seconds_since_payment : Option Int
deriving DecidableEq

structure ZoneRow where
  zone_id : Int
  zone_name : String
  maintenance_status : String
  outage_reason : Option String
  estimated_restoration : Option String
  affected_services : Option String
  status_updated : Option String
deriving DecidableEq

structure SqlDb where
  /-- `get_connection()` succeeds; `false` embeds a store that is down or
  misconfigured, which makes every query raise. -/
  connected : Bool
  waterRows : List UserRow
  elecRows : List UserRow
  zones : List ZoneRow
deriving DecidableEq

/-- Raw outcome of one SQL query, before the `except` clause. -/
inductive QueryOutcome (α : Type)
  | ok (row : Option α)
  | failed (err : String)
deriving DecidableEq

/-- The water query: exact match `OR LIKE input + '%'`, first row. -/
def sql_query_water (db : SqlDb) (c : String) : QueryOutcome UserRow :=
  if db.connected then
    .ok (db.waterRows.find? fun r =>
      r.contract_number == c || startsWithL c.data r.contract_number.data)
  else .failed "Failed to connect to Azure SQL Database"

/-- The electricity query, same shape over the electricity table. -/
def sql_query_elec (db : SqlDb) (c : String) : QueryOutcome UserRow :=
  if db.connected then
    .ok (db.elecRows.find? fun r =>
      r.contract_number == c || startsWithL c.data r.contract_number.data)
  else .failed "Failed to connect to Azure SQL Database"

/-- Embeds `get_user_by_water_contract` (sql_db.py 51-117): the `except`
clause prints the error and returns `None`, collapsing a query failure into
the same result as an absent contract. -/
def get_user_by_water_contract (db : SqlDb) (c : String) : Option UserRow :=
  match sql_query_water db c with
  | .ok row => row
  | .failed _ => none

/-- Embeds `get_user_by_electricity_contract` (sql_db.py 120-186). -/
def get_user_by_electricity_contract (db : SqlDb) (c : String) : Option UserRow :=
  match sql_query_elec db c with
  | .ok row => row
  | .failed _ => none

/-- Embeds `get_zone_by_id` (sql_db.py 189-242); its `except` likewise
returns `None`. -/
def get_zone_by_id (db : SqlDb) (zid : Int) : Option ZoneRow :=
  if db.connected then db.zones.find? fun z => z.zone_id == zid
  else none

/-! ## Mock data store — `mock_db.py` 57-128

The pandas implementation matches exactly first and, only when the supplied
string contains no `'/'`, compares the stored contract's segment before
`" / "` with the stripped input; the found invoice is then joined with the
users table (`None` when either lookup is empty). -/

/-- Embeds `s.split(' / ')[0]`: everything before the first `" / "`. -/
def takeUntilSep : List Char → List Char
  | [] => []
  | c :: cs => if startsWithL [' ', '/', ' '] (c :: cs) then [] else c :: takeUntilSep cs

structure MockWaterInvoice where
  water_contract_number : String
  user_id : Int
  is_paid : Bool
  outstanding_balance : Int
  last_payment_date : String
  cut_status : String
  cut_reason : Option String
deriving DecidableEq

structure MockUser where
  user_id : Int
  name : String
  address : String
  phone : String
  zone_id : Int
deriving DecidableEq

/-- Embeds `mock_db.get_user_by_water_contract` (mock_db.py 57-91). -/
def mock_get_user_by_water_contract (invoices : List MockWaterInvoice)
    (users : List MockUser) (c : String) : Option (MockUser × MockWaterInvoice) :=
  let found : Option MockWaterInvoice :=
    match invoices.find? fun r => r.water_contract_number == c with
    | some r => some r
    | none =>
      if c.data.contains '/' then none
      else invoices.find? fun r =>
        takeUntilSep r.water_contract_number.data == pyStrip c.data
  match found with
  | none => none
  | some inv =>
    match users.find? fun u => u.user_id == inv.user_id with
    | none => none
    | some u => some (u, inv)

/-- Matching policy written from the SPEC's words (§4.4), for comparison with
the source implementations: "exact match on the full contract string first;
if not found and the caller-supplied string has no separator, fall back to
prefix match against the leading numeric segment before the separator in
stored contracts".  (On inputs that contain a separator both readings of
"prefix match" agree: the fallback is not reached.) -/
def resolve_matching_policy_spec (stored : List String) (c : String) : Option String :=
  match stored.find? fun s => s == c with
  | some s => some s
  | none =>
    if c.data.contains '/' then none
    else stored.find? fun s => takeUntilSep s.data == pyStrip c.data

/-! ## Diagnosis Engine — `_answer_water` / `_answer_elec`
(ai_service.py 640-774)

Both functions render one continuous paragraph; the embedding returns the
diagnosis as a constructor carrying exactly the data each paragraph is built
from.  The `note` field of `maintenance` and `technicalOk` is the
reactivation advisory the source prepends to the paragraph when it is
non-empty (`if note: return _one_line(f"{note} {base}")`); `none` is the
branch without it.  `unpaid` renders the balance and never a note, and
`notFound` is the "please check the number or upload a bill photo" message. -/

inductive DetAnswer
  | notFound (service : Service) (contract : String) (lang : String)
  | maintenance (service : Service) (contract : String) (lang : String)
      (note : Option Advisory) (zoneName : String) (outageReason : String)
      (estimated : String)
  | unpaid (service : Service) (contract : String) (lang : String)
      (outstanding : Int)
  | technicalOk (service : Service) (contract : String) (lang : String)
      (note : Option Advisory) (zoneName : String) (cutStatus : String)
deriving DecidableEq

/-- `zone = get_zone_by_id(user["zone_id"]) if user.get("zone_id") is not
None else None` (ai_service.py 649, 718). -/
def user_zone (db : SqlDb) (user : UserRow) : Option ZoneRow :=
  match user.zone_id with
  | some zid => get_zone_by_id db zid
  | none => none

/-- The maintenance-branch guard of `_answer_water` / `_answer_elec`
(ai_service.py 664, 732): `maint_status == "جاري الصيانة" and needle in
affected`, where both zone fields default to `""` when the zone or the field
is missing. -/
def maintenance_applies (db : SqlDb) (user : UserRow) (needle : String) : Bool :=
  let zone := user_zone db user
  ((zone.map ZoneRow.maintenance_status).getD "" == "جاري الصيانة")
    && containsSeq needle.data (((zone.map ZoneRow.affected_services).getD none).getD "").data

/-- `zone_name = (zone.get("zone_name") if zone else "") or (language
default)` (ai_service.py 658, 726). -/
def zone_display_name (zone : Option ZoneRow) (lang : String) : String :=
  let zoneName0 := (zone.map ZoneRow.zone_name).getD ""
  if zoneName0 == "" then
    (if lang == "fr" then "votre zone" else if lang == "en" then "your area" else "منطقتك")
  else zoneName0

/-- `(zone.get("outage_reason") if zone else "") or ""` and the analogous
`estimated_restoration` read (ai_service.py 661-662, 729-730). -/
def zone_opt_field (f : ZoneRow → Option String) (zone : Option ZoneRow) : String :=
  ((zone.map f).getD none).getD ""

/-- Embeds `_answer_water` (ai_service.py 640-706). -/
def answer_water (db : SqlDb) (contract : String) (lang : String) : DetAnswer :=
  match get_user_by_water_contract db contract with
  | none => .notFound .water contract lang
  | some user =>
    let zone := user_zone db user
    let note := build_reactivation_note user.last_payment_datetime "الماء"
      user.seconds_since_payment "ar" WINDOW_SECONDS
    if maintenance_applies db user "ماء" then
      .maintenance .water contract lang note (zone_display_name zone lang)
        (zone_opt_field ZoneRow.outage_reason zone)
        (zone_opt_field ZoneRow.estimated_restoration zone)
    else if !user.is_paid || 0 < user.outstanding_balance then
      .unpaid .water contract lang user.outstanding_balance
    else
      .technicalOk .water contract lang note (zone_display_name zone lang)
        (String.mk (pyStrip user.cut_status.data))

/-- Embeds `_answer_elec` (ai_service.py 709-774), identical shape over the
electricity table and the `"كهرباء"` affected-services test. -/
def answer_elec (db : SqlDb) (contract : String) (lang : String) : DetAnswer :=
  match get_user_by_electricity_contract db contract with
  | none => .notFound .electricity contract lang
  | some user =>
    let zone := user_zone db user
    let note := build_reactivation_note user.last_payment_datetime "الكهرباء"
      user.seconds_since_payment "ar" WINDOW_SECONDS
    if maintenance_applies db user "كهرباء" then
      .maintenance .electricity contract lang note (zone_display_name zone lang)
        (zone_opt_field ZoneRow.outage_reason zone)
        (zone_opt_field ZoneRow.estimated_restoration zone)
    else if !user.is_paid || 0 < user.outstanding_balance then
      .unpaid .electricity contract lang user.outstanding_balance
    else
      .technicalOk .electricity contract lang note (zone_display_name zone lang)
        (String.mk (pyStrip user.cut_status.data))

/-! ## Mismatch/Fallback Router — `run_agent` (ai_service.py 626-872) -/

/-- Embeds `mismatch_message` (ai_service.py 54-65). -/
def mismatch_message (expected got lang : String) : String :=
  if lang == "fr" then
    "Je comprends que votre problème concerne " ++ expected ++
    ", mais vous avez fourni un numéro de contrat " ++ got ++
    ". Pouvez-vous m’envoyer le numéro de contrat " ++ expected ++
    " ? Si vous ne l’avez pas, envoyez une photo de la facture."
  else if lang == "en" then
    "I understand your issue is about " ++ expected ++ ", but you provided a " ++
    got ++ " contract number. Please send your " ++ expected ++
    " contract number. If you don’t have it, upload a photo of the bill."
  else
    let expAr := if expected == "electricity" then "الكهرباء" else "الماء"
    let gotAr := if got == "water" then "الماء" else "الكهرباء"
    "أفهم أن مشكلتك تخص " ++ expAr ++ "، لكن الرقم الذي أرسلته هو رقم عقد " ++
    gotAr ++ ". من فضلك أرسل رقم عقد " ++ expAr ++
    "، وإذا لم يكن لديك الرقم يمكنك إرسال صورة واضحة من الفاتورة."

/-- The three router outcomes of one turn: a deterministic diagnosis, the
fixed wrong-contract-type correction `mismatch_message expected got lang`, or
delegation to the generative-model path (everything from ai_service.py 821
onward).  The model path is out of scope as an external collaborator; all
that matters for the claims is which turns reach it. -/
inductive RouteResult
  | deterministic (answer : DetAnswer)
  | mismatch (expected got lang : String)
  | llmFallback (lang : String)
deriving DecidableEq

/-- Embeds `lang = language or infer_language_from_thread(...)`
(ai_service.py 781): the caller-supplied language wins when non-empty. -/
def resolve_lang (language userInput : String) (chatHistory : List Msg) : String :=
  if language == "" then (infer_language_from_thread userInput chatHistory).code
  else language

/-- Embeds the service determination of `run_agent` (ai_service.py 784-791):
classify the current text; when `unknown`, walk the history backwards over
user turns and take the first non-unknown classification. -/
def effective_service (userInput : String) (chatHistory : List Msg) : Service :=
  let service := detect_service userInput
  if service == .unknown then
    ((chatHistory.reverse.filterMap fun m =>
        if m.role == "user" then
          match detect_service m.content with
          | .unknown => none
          | s => some s
        else none).head?).getD .unknown
  else service

/-- Embeds the routing block of `run_agent` (ai_service.py 793-819): per
classified service, accept only the matching contract type; a contract of the
other type yields the mismatch correction; `both` is handled water-first; any
remaining case falls through to the generative-model path. -/
def run_agent_route (db : SqlDb) (userInput : String) (chatHistory : List Msg)
    (language : String) : RouteResult :=
  let lang := resolve_lang language userInput chatHistory
  let service := effective_service userInput chatHistory
  let w := reSearch waterPat userInput.data
  let e := reSearch elecPat userInput.data
  if service == .water then
    match w with
    | some m => .deterministic (answer_water db (String.mk (pyStrip m)) lang)
    | none =>
      match e with
      | some _ => .mismatch "water" "electricity" lang
      | none => .llmFallback lang
  else if service == .electricity then
    match e with
    | some m => .deterministic (answer_elec db (String.mk (pyStrip m)) lang)
    | none =>
      match w with
      | some _ => .mismatch "electricity" "water" lang
      | none => .llmFallback lang
  else if service == .both then
    match w with
    | some m => .deterministic (answer_water db (String.mk (pyStrip m)) lang)
    | none =>
      match e with
      | some _ => .mismatch "water" "electricity" lang
      | none => .llmFallback lang
  else .llmFallback lang

/-- Embeds the outer `try/except` of `run_agent` (ai_service.py 776, 870-872):
an exception anywhere in the body is caught and rendered as the fixed Arabic
apology carrying the exception text — the handler takes no language input. -/
def run_agent_catch (body : Except String String) : String :=
  match body with
  | .ok s => s
  | .error e => "عذراً، حدث خطأ: " ++ e

/-! ## Conversation store — `conversations.py` and the `/chat` route
(`chat.py` 110-190) -/

structure StoredMsg where
  role : String
  content : String
  timestamp : String
deriving DecidableEq

structure Conversation where
  conversation_id : String
  created_at : String
  messages : List StoredMsg
deriving DecidableEq

/-- The module-level `conversations_store` dict, embedded as an association
list (most recent binding first). -/
abbrev ConvStore := List (String × Conversation)

/-- Embeds `create_conversation` (conversations.py 14-27); the fresh
`uuid4()` is a parameter. -/
def create_conversation (store : ConvStore) (cid now : String) : ConvStore :=
  (cid, ⟨cid, now, []⟩) :: store

/-- Embeds `get_conversation` (conversations.py 30-40). -/
def get_conversation (store : ConvStore) (cid : String) : Option Conversation :=
  (store.find? fun p => p.1 == cid).map Prod.snd

/-- The in-place `conversation['messages'].append(message)` of
`add_message_to_conversation`, as a per-entry store update: the entry keyed
`cid` gets the turn appended, every other entry is untouched. -/
def appendTurn (cid role content now : String) (p : String × Conversation) :
    String × Conversation :=
  if p.1 == cid then (p.1, { p.2 with messages := p.2.messages ++ [⟨role, content, now⟩] })
  else p

/-- Embeds `add_message_to_conversation` (conversations.py 43-67): `false`
and an unchanged store for an unknown id, otherwise append one turn. -/
def add_message_to_conversation (store : ConvStore) (cid role content now : String) :
    ConvStore × Bool :=
  match get_conversation store cid with
  | none => (store, false)
  | some _ => (store.map (appendTurn cid role content now), true)

/-- Embeds `get_conversation_history` (conversations.py 70-85). -/
def get_conversation_history (store : ConvStore) (cid : String) : List StoredMsg :=
  match get_conversation store cid with
  | none => []
  | some conv => conv.messages

/-- Outcome of one `/chat` request, as far as the store is concerned. -/
inductive ChatOutcome
  | invalidConversation
  | processingError (err : String)
  | success (response : String) (conversationId : String)
deriving DecidableEq

/-- The tail of the `/chat` handler after the conversation is resolved
(chat.py 141-184): fetch the history, produce the response, and only then
commit the user and assistant turns together.  `produce` stands for
everything between the history fetch and the two appends — agent
initialization, `run_agent`, the empty-response replacement, and
`extract_action` / payload assembly; an exception anywhere in it is caught by
the route's outer `except` (chat.py 186-190) and returns HTTP 500 with the
store untouched, which `Except.error` embeds. -/
def chat_route_core (store : ConvStore) (cid message now : String)
    (produce : List StoredMsg → Except String String) : ConvStore × ChatOutcome :=
  let history := get_conversation_history store cid
  match produce history with
  | .error e => (store, .processingError e)
  | .ok responseText =>
    let step1 := add_message_to_conversation store cid "user" message now
    let step2 := add_message_to_conversation step1.1 cid "assistant" responseText now
    (step2.1, .success responseText cid)

/-- Embeds the `/chat` handler (chat.py 110-190): without a conversation id a
fresh conversation is created first; with one, an unknown id is rejected
(HTTP 404) before anything is stored. -/
def chat_route (store : ConvStore) (conversationId : Option String)
    (message freshId now : String)
    (produce : List StoredMsg → Except String String) : ConvStore × ChatOutcome :=
  match conversationId with
  | some cid =>
    match get_conversation store cid with
    | none => (store, .invalidConversation)
    | some _ => chat_route_core store cid message now produce
  | none => chat_route_core (create_conversation store freshId now) freshId message now produce

/-- A message list with no dangling user-only tail: empty, or its last turn
is not a user turn. -/
def endsOk (msgs : List StoredMsg) : Bool :=
  match msgs.getLast? with
  | none => true
  | some m => m.role != "user"

/-- The commit invariant over a whole store. -/
def storeEndsOk (store : ConvStore) : Bool := store.all fun p => endsOk p.2.messages

/-! # Theorems -/

/-- Claim C5 (confirmed): when the payment instant is absent — the store
supplies no elapsed-seconds-since-payment value, spec §6's equivalent of
`now - last_payment_timestamp` (the source gates on `seconds_since_payment
is None`, the store-computed form of the missing timestamp) — the
Reactivation Window Evaluator returns nothing, regardless of every other
input, the display timestamp included. -/
theorem c5_absent_timestamp_no_advisory (paymentTimestamp : Option Int)
    (service lang : String) (windowSeconds : Int) :
    build_reactivation_note paymentTimestamp service none lang windowSeconds = none := rfl

/-- Claim C4 (confirmed): with a 120-second window the evaluator yields
2 remaining minutes at elapsed 0 and 1 at elapsed 119, no advisory at
elapsed 120 or any elapsed at least the window, clamps negative elapsed
(-5) to 0 and still produces an advisory; and in general, for elapsed in
`[0, window)`, the remaining figure is `ceil((window - elapsed) / 60)`
minutes floored at 1, never 0. -/
theorem c4_reactivation_window_arithmetic :
    (∀ pt s lang, (build_reactivation_note pt s (some 0) lang 120).map
      Advisory.remainingMinutes = some 2)
    ∧ (∀ pt s lang, (build_reactivation_note pt s (some 119) lang 120).map
      Advisory.remainingMinutes = some 1)
    ∧ (∀ pt s lang (w e : Int), w ≤ e →
      build_reactivation_note pt s (some e) lang w = none)
    ∧ (∀ pt s lang,
      build_reactivation_note pt s (some (-5)) lang 120
        = build_reactivation_note pt s (some 0) lang 120
      ∧ (build_reactivation_note pt s (some (-5)) lang 120).isSome = true)
    ∧ (∀ pt s lang (w e : Int), 0 ≤ e → e < w →
      (build_reactivation_note pt s (some e) lang w).map Advisory.remainingMinutes
        = some (max 1 (((w - e).toNat + 59) / 60)))
    ∧ (∀ pt s lang ss (w : Int) a, build_reactivation_note pt s ss lang w = some a →
      1 ≤ a.remainingMinutes) := by
  refine ⟨?_, ?_, ?_, ?_, ?_, ?_⟩
  · intro pt s lang
    norm_num [build_reactivation_note]
    decide
  · intro pt s lang
    norm_num [build_reactivation_note]
  · intro pt s lang w e hwe
    have h : w ≤ (if e < 0 then (0 : Int) else e) := by
      by_cases he : e < 0 <;> simp [he] <;> omega
    simp only [build_reactivation_note]
    rw [if_pos h]
  · intro pt s lang
    constructor
    · norm_num [build_reactivation_note]
    · norm_num [build_reactivation_note]
  · intro pt s lang w e h0 hlt
    have hneg : ¬ e < 0 := by omega
    have hw : ¬ w ≤ (if e < 0 then (0 : Int) else e) := by
      rw [if_neg hneg]; omega
    simp only [build_reactivation_note]
    rw [if_neg hw, if_neg hneg]
    simp
  · intro pt s lang ss w a h
    match ss with
    | none => simp [build_reactivation_note] at h
    | some e =>
      simp only [build_reactivation_note] at h
      by_cases hw : w ≤ (if e < 0 then (0 : Int) else e)
      · rw [if_pos hw] at h
        exact absurd h (by simp)
      · rw [if_neg hw] at h
        rw [Option.some_inj] at h
        subst h
        simp

/-- Witness for C4: at elapsed 30 seconds of a 120-second window the general
formula applies and gives the remaining-minutes figure. -/
theorem c4_witness_elapsed_30 :
    (build_reactivation_note none "الماء" (some 30) "ar" 120).map Advisory.remainingMinutes
      = some (max 1 ((((120 : Int) - 30).toNat + 59) / 60)) :=
  c4_reactivation_window_arithmetic.2.2.2.2.1 none "الماء" "ar" 120 30 (by norm_num)
    (by norm_num)

/-- Claim C6 (confirmed): language inference is total into the closed set
{ar, fr, en} and follows the fixed priority — (1) Arabic script in the most
recent assistant turn forces ar with no condition at all on the current text
(session stickiness, covering the Latin-script no-marker instance of the
claim), (2) otherwise Arabic script in the stripped current text forces ar,
(3) otherwise Arabizi digits or Darija tokens force ar, (4) otherwise French
markers give fr, (5) otherwise en. -/
theorem c6_language_inference_priority :
    (∀ t (h : List Msg), infer_language_from_thread t h = .ar
      ∨ infer_language_from_thread t h = .fr ∨ infer_language_from_thread t h = .en)
    ∧ (∀ t (h : List Msg), containsArabicL (lastAssistantContent h).data = true →
      infer_language_from_thread t h = .ar)
    ∧ (∀ t (h : List Msg), containsArabicL (lastAssistantContent h).data = false →
      containsArabicL (pyStrip t.data) = true → infer_language_from_thread t h = .ar)
    ∧ (∀ t (h : List Msg), containsArabicL (lastAssistantContent h).data = false →
      containsArabicL (pyStrip t.data) = false →
      (containsArabiziDigitL (pyStrip t.data) || hasDarijaTokenL (pyStrip t.data)) = true →
      infer_language_from_thread t h = .ar)
    ∧ (∀ t (h : List Msg), containsArabicL (lastAssistantContent h).data = false →
      containsArabicL (pyStrip t.data) = false →
      (containsArabiziDigitL (pyStrip t.data) || hasDarijaTokenL (pyStrip t.data)) = false →
      frAnyL (pyStrip t.data) = true → infer_language_from_thread t h = .fr)
    ∧ (∀ t (h : List Msg), containsArabicL (lastAssistantContent h).data = false →
      containsArabicL (pyStrip t.data) = false →
      (containsArabiziDigitL (pyStrip t.data) || hasDarijaTokenL (pyStrip t.data)) = false →
      frAnyL (pyStrip t.data) = false → infer_language_from_thread t h = .en) := by
  refine ⟨?_, ?_, ?_, ?_, ?_, ?_⟩
  · intro t h
    cases hr : infer_language_from_thread t h with
    | ar => exact Or.inl rfl
    | fr => exact Or.inr (Or.inl rfl)
    | en => exact Or.inr (Or.inr rfl)
  · intro t h h1
    simp [infer_language_from_thread, h1]
  · intro t h h1 h2
    simp [infer_language_from_thread, h1, h2]
  · intro t h h1 h2 h3
    simp [infer_language_from_thread, h1, h2, h3]
  · intro t h h1 h2 h3 h4
    simp only [Bool.or_eq_false_iff] at h3
    simp [infer_language_from_thread, h1, h2, h3.1, h3.2, h4]
  · intro t h h1 h2 h3 h4
    simp only [Bool.or_eq_false_iff] at h3
    simp [infer_language_from_thread, h1, h2, h3.1, h3.2, h4]

/-- Witness for C6: the last assistant turn is Arabic-script, the current
user message is Latin-script with no Darija and no French markers, and the
inference is still ar. -/
theorem c6_witness_sticky_arabic :
    infer_language_from_thread "hello how are you" [⟨"assistant", "مرحباً بك"⟩] = .ar :=
  c6_language_inference_priority.2.1 "hello how are you" [⟨"assistant", "مرحباً بك"⟩]
    (by decide)

/-- Claim C10 (corrected): a message containing one of 2,3,5,7,9, with no
Arabic-script assistant turn in the history and no Arabic script in the
message itself, is inferred ar — and every message carrying a WATER contract
number is of this kind (the prefix 3701 contains 3 and 7).  A message whose
only contract number is an electricity one need not contain any such digit,
so it can be answered in en (see the counterexample); the original
parenthetical "every message carrying a contract number" is too strong. -/
theorem c10_arabizi_digit_rule :
    (∀ t (hist : List Msg), containsArabicL (lastAssistantContent hist).data = false →
      containsArabicL (pyStrip t.data) = false →
      containsArabiziDigitL (pyStrip t.data) = true →
      infer_language_from_thread t hist = .ar)
    ∧ (∀ l : List Char, (reSearch waterPat l).isSome = true →
      containsArabiziDigitL l = true)
    ∧ (∀ t (hist : List Msg), containsArabicL (lastAssistantContent hist).data = false →
      containsArabicL (pyStrip t.data) = false →
      (reSearch waterPat (pyStrip t.data)).isSome = true →
      infer_language_from_thread t hist = .ar) := by
  have hmain : ∀ t (hist : List Msg),
      containsArabicL (lastAssistantContent hist).data = false →
      containsArabicL (pyStrip t.data) = false →
      containsArabiziDigitL (pyStrip t.data) = true →
      infer_language_from_thread t hist = .ar := by
    intro t hist h1 h2 h3
    simp [infer_language_from_thread, h1, h2, h3]
  have hwater : ∀ l : List Char, (reSearch waterPat l).isSome = true →
      containsArabiziDigitL l = true := by
    intro l
    induction l with
    | nil => intro h; simp [reSearch] at h
    | cons c ls ih =>
      intro h
      by_cases hm : startsWithL waterPat (c :: ls) = true
      · have hc : c = '3' := by
          simp only [waterPat, startsWithL, Bool.and_eq_true, beq_iff_eq] at hm
          exact hm.1.symm
        subst hc
        simp [containsArabiziDigitL, isArabiziDigit]
      · rw [Bool.not_eq_true] at hm
        have hnone : matchContractAt waterPat (c :: ls) = none := by
          simp [matchContractAt, hm]
        rw [show reSearch waterPat (c :: ls)
            = (match matchContractAt waterPat (c :: ls) with
               | some m => some m
               | none => reSearch waterPat ls) from rfl, hnone] at h
        have := ih h
        simp only [containsArabiziDigitL, List.any_cons] at this ⊢
        simp [this]
  exact ⟨hmain, hwater, fun t hist h1 h2 h3 =>
    hmain t hist h1 h2 (hwater (pyStrip t.data) h3)⟩

/-- Counterexample for C10: `"4801000000 / 0000"` carries a syntactically
valid electricity contract number, contains none of 2,3,5,7,9, and with an
empty history is inferred en, not ar. -/
theorem c10_counterexample_electricity_contract_english :
    (reSearch elecPat "4801000000 / 0000".data).isSome = true
    ∧ containsArabiziDigitL "4801000000 / 0000".data = false
    ∧ infer_language_from_thread "4801000000 / 0000" [] = .en := by
  refine ⟨by decide, by decide, by decide⟩

/-- Witness for C10: a Latin-script message carrying a water contract number
is inferred ar. -/
theorem c10_witness_digit_message_arabic :
    infer_language_from_thread "please check 3701455886 / 1014871" [] = .ar :=
  c10_arabizi_digit_rule.1 "please check 3701455886 / 1014871" [] (by decide) (by decide)
    (by decide)

/-- Claim C1 (confirmed): per service, when the resolved account's zone is in
maintenance with the service among the affected services
(`maintenance_applies`), the diagnosis is MAINTENANCE — the branch carries no
payment hypothesis whatsoever, so it wins even with `is_paid = false` or a
positive balance — rendering the zone name, outage reason and ETA, and
carrying (prepending) the reactivation advisory computed from the account's
payment fields instead of suppressing it.  The UNPAID outcome is produced
only under `maintenance_applies ... = false` (third and fourth conjuncts),
never when the maintenance branch applies. -/
theorem c1_maintenance_precedence :
    (∀ db contract lang user, get_user_by_water_contract db contract = some user →
      maintenance_applies db user "ماء" = true →
      answer_water db contract lang =
        .maintenance .water contract lang
          (build_reactivation_note user.last_payment_datetime "الماء"
            user.seconds_since_payment "ar" WINDOW_SECONDS)
          (zone_display_name (user_zone db user) lang)
          (zone_opt_field ZoneRow.outage_reason (user_zone db user))
          (zone_opt_field ZoneRow.estimated_restoration (user_zone db user)))
    ∧ (∀ db contract lang user, get_user_by_electricity_contract db contract = some user →
      maintenance_applies db user "كهرباء" = true →
      answer_elec db contract lang =
        .maintenance .electricity contract lang
          (build_reactivation_note user.last_payment_datetime "الكهرباء"
            user.seconds_since_payment "ar" WINDOW_SECONDS)
          (zone_display_name (user_zone db user) lang)
          (zone_opt_field ZoneRow.outage_reason (user_zone db user))
          (zone_opt_field ZoneRow.estimated_restoration (user_zone db user)))
    ∧ (∀ db contract lang user, get_user_by_water_contract db contract = some user →
      maintenance_applies db user "ماء" = false →
      (!user.is_paid || 0 < user.outstanding_balance) = true →
      answer_water db contract lang = .unpaid .water contract lang user.outstanding_balance)
    ∧ (∀ db contract lang user, get_user_by_electricity_contract db contract = some user →
      maintenance_applies db user "كهرباء" = false →
      (!user.is_paid || 0 < user.outstanding_balance) = true →
      answer_elec db contract lang
        = .unpaid .electricity contract lang user.outstanding_balance) := by
  refine ⟨?_, ?_, ?_, ?_⟩
  · intro db contract lang user h1 h2
    simp [answer_water, h1, h2]
  · intro db contract lang user h1 h2
    simp [answer_elec, h1, h2]
  · intro db contract lang user h1 h2 h3
    simp [answer_water, h1, h2, h3]
  · intro db contract lang user h1 h2 h3
    simp [answer_elec, h1, h2, h3]

/-- Witness for C1: an account that is unpaid (450 MAD outstanding, cut off)
in a zone under water maintenance is diagnosed MAINTENANCE, not UNPAID. -/
theorem c1_witness_maintenance_wins_over_unpaid :
    answer_water
      ⟨true,
       [⟨5, "يوسف السباعي", "حي الصناعي، آسفي", "0699887766", some 1,
         "3701455890 / 1014875", false, 450, some "2026-01-15", "CUT_OFF",
         some "Non-payment", none, none⟩],
       [],
       [⟨1, "مراكش - حي المسيرة", "جاري الصيانة", some "إصلاح أنابيب المياه الرئيسية",
         some "2024-12-04 18:00", some "ماء", some "2024-12-03 08:00"⟩]⟩
      "3701455890 / 1014875" "ar"
    = .maintenance .water "3701455890 / 1014875" "ar" none "مراكش - حي المسيرة"
        "إصلاح أنابيب المياه الرئيسية" "2024-12-04 18:00" := by
  have h := c1_maintenance_precedence.1
    ⟨true,
     [⟨5, "يوسف السباعي", "حي الصناعي، آسفي", "0699887766", some 1,
       "3701455890 / 1014875", false, 450, some "2026-01-15", "CUT_OFF",
       some "Non-payment", none, none⟩],
     [],
     [⟨1, "مراكش - حي المسيرة", "جاري الصيانة", some "إصلاح أنابيب المياه الرئيسية",
       some "2024-12-04 18:00", some "ماء", some "2024-12-03 08:00"⟩]⟩
    "3701455890 / 1014875" "ar"
    ⟨5, "يوسف السباعي", "حي الصناعي، آسفي", "0699887766", some 1,
     "3701455890 / 1014875", false, 450, some "2026-01-15", "CUT_OFF",
     some "Non-payment", none, none⟩
    (by decide) (by decide)
  rw [h]
  decide

/-- Claim C2 (confirmed): whenever the effective classified service (current
text, with history fallback) is water but the text carries only an
electricity contract — and symmetrically — the router returns the fixed
wrong-contract-type correction with the resolved language, and the result is
independent of the data store (third and fourth conjuncts: for a mismatching
or absent contract the whole turn is the same under any two stores, so no
account lookup and no Diagnosis Engine rendering can have taken place).  The
last conjunct checks that the fixed correction names the expected service in
each language branch. -/
theorem c2_mismatch_routing :
    (∀ (db : SqlDb) (u : String) (hist : List Msg) (language : String),
      effective_service u hist = .water →
      reSearch waterPat u.data = none →
      (reSearch elecPat u.data).isSome = true →
      run_agent_route db u hist language
        = .mismatch "water" "electricity" (resolve_lang language u hist))
    ∧ (∀ (db : SqlDb) (u : String) (hist : List Msg) (language : String),
      effective_service u hist = .electricity →
      reSearch elecPat u.data = none →
      (reSearch waterPat u.data).isSome = true →
      run_agent_route db u hist language
        = .mismatch "electricity" "water" (resolve_lang language u hist))
    ∧ (∀ (db db' : SqlDb) (u : String) (hist : List Msg) (language : String),
      effective_service u hist = .water →
      reSearch waterPat u.data = none →
      run_agent_route db u hist language = run_agent_route db' u hist language)
    ∧ (∀ (db db' : SqlDb) (u : String) (hist : List Msg) (language : String),
      effective_service u hist = .electricity →
      reSearch elecPat u.data = none →
      run_agent_route db u hist language = run_agent_route db' u hist language)
    ∧ (∀ lang : String,
      containsSeq (if lang == "fr" || lang == "en" then "water".data else "الماء".data)
        (mismatch_message "water" "electricity" lang).data = true
      ∧ containsSeq
          (if lang == "fr" || lang == "en" then "electricity".data else "الكهرباء".data)
          (mismatch_message "electricity" "water" lang).data = true) := by
  refine ⟨?_, ?_, ?_, ?_, ?_⟩
  · intro db u hist language hs hw he
    obtain ⟨m, hm⟩ := Option.isSome_iff_exists.mp he
    simp [run_agent_route, hs, hw, hm]
  · intro db u hist language hs he hw
    obtain ⟨m, hm⟩ := Option.isSome_iff_exists.mp hw
    simp [run_agent_route, hs, he, hm]
  · intro db db' u hist language hs hw
    cases he : reSearch elecPat u.data with
    | none => simp [run_agent_route, hs, hw, he]
    | some m => simp [run_agent_route, hs, hw, he]
  · intro db db' u hist language hs he
    cases hw : reSearch waterPat u.data with
    | none => simp [run_agent_route, hs, he, hw]
    | some m => simp [run_agent_route, hs, he, hw]
  · intro lang
    by_cases hf : lang == "fr"
    · have : lang = "fr" := by simpa using hf
      subst this
      exact ⟨by decide, by decide⟩
    · by_cases he : lang == "en"
      · have : lang = "en" := by simpa using he
        subst this
        exact ⟨by decide, by decide⟩
      · rw [Bool.not_eq_true] at hf he
        constructor
        · simp only [mismatch_message, hf, he, Bool.false_eq_true, if_false,
            Bool.or_self]
          decide
        · simp only [mismatch_message, hf, he, Bool.false_eq_true, if_false,
            Bool.or_self]
          decide

/-- Witness for C2: a water complaint carrying only an electricity contract
is answered with the wrong-contract-type correction. -/
theorem c2_witness_water_with_electricity_contract :
    run_agent_route ⟨true, [], [], []⟩ "my water is cut 4801566997 / 2025982" [] "en"
      = .mismatch "water" "electricity"
          (resolve_lang "en" "my water is cut 4801566997 / 2025982" []) :=
  c2_mismatch_routing.1 ⟨true, [], [], []⟩ "my water is cut 4801566997 / 2025982" [] "en"
    (by decide) (by decide) (by decide)

/-- Claim C3 (corrected): the deterministic path — account resolution,
reactivation evaluation and diagnosis via `answer_water` / `answer_elec`,
with no model call — is taken when the effective classified service is water
with a water contract present, electricity with an electricity contract
present, or both with a water contract present.  The original claim also
asserted it for an unknown service with a contract present; the code instead
delegates every unknown-service turn to the generative model (fourth
conjunct, and the counterexample). -/
theorem c3_deterministic_path (db : SqlDb) (u : String) (hist : List Msg)
    (language : String) :
    (effective_service u hist = .water → ∀ m, reSearch waterPat u.data = some m →
      run_agent_route db u hist language
        = .deterministic (answer_water db (String.mk (pyStrip m)) (resolve_lang language u hist)))
    ∧ (effective_service u hist = .electricity → ∀ m, reSearch elecPat u.data = some m →
      run_agent_route db u hist language
        = .deterministic (answer_elec db (String.mk (pyStrip m)) (resolve_lang language u hist)))
    ∧ (effective_service u hist = .both → ∀ m, reSearch waterPat u.data = some m →
      run_agent_route db u hist language
        = .deterministic (answer_water db (String.mk (pyStrip m)) (resolve_lang language u hist)))
    ∧ (effective_service u hist = .unknown →
      run_agent_route db u hist language = .llmFallback (resolve_lang language u hist)) := by
  refine ⟨?_, ?_, ?_, ?_⟩
  · intro hs m hm
    simp [run_agent_route, hs, hm]
  · intro hs m hm
    simp [run_agent_route, hs, hm]
  · intro hs m hm
    simp [run_agent_route, hs, hm]
  · intro hs
    simp [run_agent_route, hs]

/-- Counterexample for C3: a bare contract number with empty history
classifies as unknown, a water contract is found, the matching account even
exists in the store — yet the router falls through to the generative-model
path instead of the deterministic diagnosis. -/
theorem c3_counterexample_unknown_service_with_contract :
    effective_service "3701455886 / 1014871" [] = .unknown
    ∧ (reSearch waterPat "3701455886 / 1014871".data).isSome = true
    ∧ run_agent_route
        ⟨true,
         [⟨1, "عبد النبي المرزوقي", "حي المسيرة، مراكش", "0612345678", some 1,
           "3701455886 / 1014871", true, 0, some "2026-01-15", "OK", none, none, none⟩],
         [], []⟩
        "3701455886 / 1014871" [] "ar"
      = .llmFallback "ar" := by
  refine ⟨by decide, by decide, by decide⟩

/-- Witness for C3 (amended): a water complaint with a water contract takes
the deterministic path. -/
theorem c3_witness_water_deterministic :
    run_agent_route ⟨true, [], [], []⟩ "my water is cut 3701455886 / 1014871" [] "ar"
      = .deterministic
          (answer_water ⟨true, [], [], []⟩
            (String.mk (pyStrip "3701455886 / 1014871".data))
            (resolve_lang "ar" "my water is cut 3701455886 / 1014871" [])) :=
  (c3_deterministic_path ⟨true, [], [], []⟩ "my water is cut 3701455886 / 1014871" []
    "ar").1 (by decide) "3701455886 / 1014871".data (by decide)

/-- Claim C7 (corrected): the two account resolvers do not share one
matching policy.  The in-memory resolver (mock_db) follows the claimed one —
exact match first (first conjunct), `None` when no exact match exists and
the supplied string contains a separator (second), leading-segment
equality fallback only without a separator (third).  The SQL resolver
instead answers, in a single query, the first stored row whose contract
equals the supplied string OR merely begins with it, with no separator gate
(fourth and fifth conjuncts); both resolvers return `None`, not an
exception, when nothing matches (sixth conjunct and the mock conjuncts). -/
theorem c7_matching_policy :
    (∀ (invoices : List MockWaterInvoice) (users : List MockUser) (c : String) inv,
      invoices.find? (fun r => r.water_contract_number == c) = some inv →
      mock_get_user_by_water_contract invoices users c
        = (users.find? fun u => u.user_id == inv.user_id).map (fun u => (u, inv)))
    ∧ (∀ (invoices : List MockWaterInvoice) (users : List MockUser) (c : String),
      invoices.find? (fun r => r.water_contract_number == c) = none →
      c.data.contains '/' = true →
      mock_get_user_by_water_contract invoices users c = none)
    ∧ (∀ (invoices : List MockWaterInvoice) (users : List MockUser) (c : String),
      invoices.find? (fun r => r.water_contract_number == c) = none →
      c.data.contains '/' = false →
      mock_get_user_by_water_contract invoices users c
        = (invoices.find? fun r =>
            takeUntilSep r.water_contract_number.data == pyStrip c.data).bind
            (fun inv => (users.find? fun u => u.user_id == inv.user_id).map fun u => (u, inv)))
    ∧ (∀ (db : SqlDb) (c : String), db.connected = true →
      get_user_by_water_contract db c
        = db.waterRows.find? fun r =>
            r.contract_number == c || startsWithL c.data r.contract_number.data)
    ∧ (∀ (db : SqlDb) (c : String), db.connected = true →
      get_user_by_electricity_contract db c
        = db.elecRows.find? fun r =>
            r.contract_number == c || startsWithL c.data r.contract_number.data)
    ∧ (∀ (db : SqlDb) (c : String), db.connected = true →
      (db.waterRows.all fun r =>
        !(r.contract_number == c || startsWithL c.data r.contract_number.data)) = true →
      get_user_by_water_contract db c = none) := by
  have h4 : ∀ (db : SqlDb) (c : String), db.connected = true →
      get_user_by_water_contract db c
        = db.waterRows.find? fun r =>
            r.contract_number == c || startsWithL c.data r.contract_number.data := by
    intro db c h
    simp [get_user_by_water_contract, sql_query_water, h]
  refine ⟨?_, ?_, ?_, h4, ?_, ?_⟩
  · intro invoices users c inv h
    simp only [mock_get_user_by_water_contract, h]
    cases users.find? fun u => u.user_id == inv.user_id <;> simp
  · intro invoices users c h1 h2
    have h2' : '/' ∈ c.data := by simpa using h2
    simp [mock_get_user_by_water_contract, h1, h2']
  · intro invoices users c h1 h2
    have h2' : ¬ '/' ∈ c.data := by simpa using h2
    cases hf : invoices.find? fun r =>
        takeUntilSep r.water_contract_number.data == pyStrip c.data with
    | none => simp [mock_get_user_by_water_contract, h1, h2, h2', hf]
    | some inv =>
      cases hu : users.find? fun u => u.user_id == inv.user_id with
      | none => simp [mock_get_user_by_water_contract, h1, h2, h2', hf, hu]
      | some u => simp [mock_get_user_by_water_contract, h1, h2, h2', hf, hu]
  · intro db c h
    simp [get_user_by_electricity_contract, sql_query_elec, h]
  · intro db c h hall
    rw [h4 db c h, List.find?_eq_none]
    intro x hx
    have := List.all_eq_true.mp hall x hx
    simpa using this

/-- Counterexample for C7: against a store holding `"3701455886 / 1014871"`,
the supplied string `"3701455886 / 10"` is no exact match and contains a
separator, so per the claimed policy (and per the mock and the spec-worded
policy) no account matches — yet the SQL resolver returns the account via
its ungated `LIKE` prefix match. -/
theorem c7_counterexample_sql_prefix_with_separator :
    ("3701455886 / 1014871" == "3701455886 / 10") = false
    ∧ "3701455886 / 10".data.contains '/' = true
    ∧ get_user_by_water_contract
        ⟨true,
         [⟨1, "عبد النبي المرزوقي", "حي المسيرة، مراكش", "0612345678", some 1,
           "3701455886 / 1014871", true, 0, some "2026-01-15", "OK", none, none, none⟩],
         [], []⟩
        "3701455886 / 10"
      = some ⟨1, "عبد النبي المرزوقي", "حي المسيرة، مراكش", "0612345678", some 1,
          "3701455886 / 1014871", true, 0, some "2026-01-15", "OK", none, none, none⟩
    ∧ resolve_matching_policy_spec ["3701455886 / 1014871"] "3701455886 / 10" = none
    ∧ mock_get_user_by_water_contract
        [⟨"3701455886 / 1014871", 1, true, 0, "2026-01-15", "OK", none⟩]
        [⟨1, "عبد النبي المرزوقي", "حي المسيرة، مراكش", "0612345678", 1⟩]
        "3701455886 / 10" = none := by
  refine ⟨by decide, by decide, by decide, by decide, by decide⟩

/-- Witness for C7 (amended): the mock resolver's separator gate at a
concrete partial-with-separator input. -/
theorem c7_witness_mock_separator_gate :
    mock_get_user_by_water_contract
      [⟨"3701455886 / 1014871", 1, true, 0, "2026-01-15", "OK", none⟩]
      [⟨1, "عبد النبي المرزوقي", "حي المسيرة، مراكش", "0612345678", 1⟩]
      "3701455887 / 10" = none :=
  c7_matching_policy.2.1
    [⟨"3701455886 / 1014871", 1, true, 0, "2026-01-15", "OK", none⟩]
    [⟨1, "عبد النبي المرزوقي", "حي المسيرة، مراكش", "0612345678", 1⟩]
    "3701455887 / 10" (by decide) (by decide)

/-- Claim C8 (corrected): a failing store lookup is NOT surfaced distinct
from NotFound.  The thrown query error is caught inside the data layer,
printed, and collapsed to `None` (first two conjuncts), which the diagnosis
renders as the contract-not-found message (third and fourth conjuncts) — the
very conversion the claim rules out.  Only an exception inside `run_agent`
itself yields a generic apology, and that apology is one fixed Arabic string
carrying the cause, not a message in the inferred language (last conjunct:
the handler takes no language input at all). -/
theorem c8_store_failure_collapsed_to_notfound :
    (∀ (db : SqlDb) (c : String), db.connected = false →
      sql_query_water db c = .failed "Failed to connect to Azure SQL Database"
      ∧ get_user_by_water_contract db c = none)
    ∧ (∀ (db : SqlDb) (c : String), db.connected = false →
      get_user_by_electricity_contract db c = none)
    ∧ (∀ (db : SqlDb) (c lang : String), db.connected = false →
      answer_water db c lang = .notFound .water c lang)
    ∧ (∀ (db : SqlDb) (c lang : String), db.connected = false →
      answer_elec db c lang = .notFound .electricity c lang)
    ∧ (∀ e, run_agent_catch (.error e) = "عذراً، حدث خطأ: " ++ e) := by
  refine ⟨?_, ?_, ?_, ?_, fun e => rfl⟩
  · intro db c h
    constructor
    · simp [sql_query_water, h]
    · simp [get_user_by_water_contract, sql_query_water, h]
  · intro db c h
    simp [get_user_by_electricity_contract, sql_query_elec, h]
  · intro db c lang h
    simp [answer_water, get_user_by_water_contract, sql_query_water, h]
  · intro db c lang h
    simp [answer_elec, get_user_by_electricity_contract, sql_query_elec, h]

/-- Counterexample for C8: with the store down, the query fails, yet the
account — which exists in the store — is reported with exactly the same
NotFound rendering as a genuinely absent contract (third conjunct compares
with an empty, healthy store). -/
theorem c8_counterexample_failure_rendered_as_notfound :
    sql_query_water
        ⟨false,
         [⟨1, "عبد النبي المرزوقي", "حي المسيرة، مراكش", "0612345678", some 1,
           "3701455886 / 1014871", true, 0, some "2026-01-15", "OK", none, none, none⟩],
         [], []⟩
        "3701455886 / 1014871" = .failed "Failed to connect to Azure SQL Database"
    ∧ answer_water
        ⟨false,
         [⟨1, "عبد النبي المرزوقي", "حي المسيرة، مراكش", "0612345678", some 1,
           "3701455886 / 1014871", true, 0, some "2026-01-15", "OK", none, none, none⟩],
         [], []⟩
        "3701455886 / 1014871" "en"
      = .notFound .water "3701455886 / 1014871" "en"
    ∧ answer_water ⟨true, [], [], []⟩ "3701455886 / 1014871" "en"
      = .notFound .water "3701455886 / 1014871" "en" := by
  refine ⟨by decide, by decide, by decide⟩

/-- Witness for C8 (amended): a down store yields the NotFound diagnosis. -/
theorem c8_witness_down_store_notfound :
    answer_water ⟨false, [], [], []⟩ "3701455886 / 1014871" "fr"
      = .notFound .water "3701455886 / 1014871" "fr" :=
  c8_store_failure_collapsed_to_notfound.2.2.1 ⟨false, [], [], []⟩
    "3701455886 / 1014871" "fr" rfl

/-- `appendTurn` never changes an entry's key. -/
lemma appendTurn_fst (cid role content now : String) (p : String × Conversation) :
    (appendTurn cid role content now p).1 = p.1 := by
  unfold appendTurn
  split <;> rfl

/-- Looking a conversation up after a store-wide `appendTurn` map finds it
exactly when it was found before (keys are untouched). -/
lemma get_conversation_map_appendTurn (cid role content now cid' : String)
    (store : ConvStore) :
    get_conversation (store.map (appendTurn cid role content now)) cid'
      = ((store.find? fun p => p.1 == cid').map (appendTurn cid role content now)).map
          Prod.snd := by
  unfold get_conversation
  rw [List.find?_map]
  have hfun : ((fun p : String × Conversation => p.1 == cid') ∘
      appendTurn cid role content now) = fun p : String × Conversation => p.1 == cid' := by
    funext p
    simp [Function.comp, appendTurn_fst]
  rw [hfun]

/-- Appending a user turn and then an assistant turn to one conversation
preserves the no-dangling-user invariant of the whole store: the touched
conversation now ends with the assistant turn, the rest are untouched. -/
lemma storeEndsOk_two_appends (cid uc ut ac at' : String) :
    ∀ store : ConvStore, storeEndsOk store = true →
      storeEndsOk ((store.map (appendTurn cid "user" uc ut)).map
        (appendTurn cid "assistant" ac at')) = true := by
  intro store h
  induction store with
  | nil => rfl
  | cons p ps ih =>
    simp only [storeEndsOk, List.map_cons, List.all_cons, Bool.and_eq_true] at h ⊢
    refine ⟨?_, ih h.2⟩
    by_cases hp : (p.1 == cid) = true
    · simp [appendTurn, hp, endsOk, List.getLast?_concat]
    · rw [Bool.not_eq_true] at hp
      simp [appendTurn, hp, h.1]

/-- The post-resolution tail of the `/chat` handler preserves the
invariant. -/
lemma chat_route_core_endsOk (store : ConvStore) (cid message now : String)
    (produce : List StoredMsg → Except String String)
    (h : storeEndsOk store = true) :
    storeEndsOk (chat_route_core store cid message now produce).1 = true := by
  cases hp : produce (get_conversation_history store cid) with
  | error e =>
    simp only [chat_route_core, hp]
    exact h
  | ok resp =>
    cases hc : get_conversation store cid with
    | none =>
      simp only [chat_route_core, hp, add_message_to_conversation, hc]
      exact h
    | some conv =>
      have hfind : ∃ q, store.find? (fun p => p.1 == cid) = some q := by
        unfold get_conversation at hc
        cases hq : store.find? fun p => p.1 == cid with
        | none => rw [hq] at hc; simp at hc
        | some q => exact ⟨q, rfl⟩
      obtain ⟨q, hq⟩ := hfind
      have hc2 : get_conversation (store.map (appendTurn cid "user" message now)) cid
          = some (appendTurn cid "user" message now q).2 := by
        rw [get_conversation_map_appendTurn, hq]
        rfl
      simp only [chat_route_core, hp, add_message_to_conversation, hc, hc2]
      exact storeEndsOk_two_appends cid message now resp now store h

/-- Claim C9 (confirmed): the `/chat` handler appends the user and assistant
turns of one exchange together, only after the response is produced — a
request that fails beforehand (bad conversation id, or any exception while
producing the response) leaves the store unchanged — so a store in which no
conversation ends with a dangling user-only turn stays that way after any
request; and appending to an unknown conversation id returns `false` with
the store untouched. -/
theorem c9_commit_invariant :
    (∀ (store : ConvStore) (conversationId : Option String)
      (message freshId now : String)
      (produce : List StoredMsg → Except String String),
      storeEndsOk store = true →
      storeEndsOk (chat_route store conversationId message freshId now produce).1 = true)
    ∧ (∀ (store : ConvStore) (cid role content now : String),
      get_conversation store cid = none →
      add_message_to_conversation store cid role content now = (store, false)) := by
  constructor
  · intro store conversationId message freshId now produce h
    cases conversationId with
    | some cid =>
      cases hc : get_conversation store cid with
      | none =>
        simp only [chat_route, hc]
        exact h
      | some conv =>
        simp only [chat_route, hc]
        exact chat_route_core_endsOk store cid message now produce h
    | none =>
      simp only [chat_route]
      apply chat_route_core_endsOk
      simpa [create_conversation, storeEndsOk, endsOk] using h
  · intro store cid role content now h
    simp [add_message_to_conversation, h]

/-- Witness for C9: a fresh conversation processed successfully ends with
the assistant turn; the invariant evaluates to true on the resulting
store. -/
theorem c9_witness_fresh_conversation :
    storeEndsOk (chat_route [] none "hi" "c1" "t0" (fun _ => .ok "hello")).1 = true :=
  c9_commit_invariant.1 [] none "hi" "c1" "t0" (fun _ => .ok "hello") (by decide)

end SRM
